import Mathlib

/-!
Verification development for the Baseweight Snap iOS model-manager core
(`Snap/ModelManager/model_manager.cpp` and `model_manager_wrapper.cpp`).

The C++ `ModelManager` singleton is embedded shallowly: its private fields
become the record `MMState`; the external inference backend (llama.cpp,
mtmd, the chat-template engine, the image decoder) is abstracted as an
oracle environment `Env` for lifecycle calls and `GenEnv` for one
generation run (sampling, end-of-generation test, detokenization, and the
per-token feed-back decode).  Machine strings are `List Char`, token ids
(`llama_token`) are `Int`, and opaque native handles are `Option Nat`
(`none` models a null handle).
-/

/-- Token ids (`llama_token`). -/
abbrev Token := Int

/-- The private fields of the C++ `ModelManager` (model_manager.h, lines 63-88). -/
structure MMState where
  ctx_vision : Option Nat
  model : Option Nat
  lctx : Option Nat
  vocab : Option Nat
  batchInit : Bool
  n_batch : Nat
  n_past : Nat
  sampler : Option Nat
  bitmaps : List Nat
  tmpls : Option Nat
  antiprompt_tokens : List Token

deriving instance DecidableEq for MMState

/-- Oracle for the external backend calls made by the lifecycle and turn
functions.  Each field corresponds to one boundary collaborator of spec
section 6; `none` results model null / failing native calls. -/
structure Env where
  loadModel : List Char → Option Nat
  getVocab : Nat → Nat
  loadVision : List Char → Option Nat → Option Nat
  newContext : Option Nat → Nat → Option Nat
  samplerInit : Option Nat → Option Nat
  builtinTemplate : Nat → Option (List Char)
  templatesInit : Option Nat → Option (List Char) → Option Nat
  tokenizeText : Option Nat → List Char → List Token
  chatFormat : Nat → List Char → List Char
  mtmdTokenize : Option Nat → List Char → Bool → List Nat → Int
  evalChunks : Option Nat → Option Nat → List Char → List Nat → Nat → Option Nat
  decodeImage : List Char → Option Nat

/-- Oracle for the backend behaviour observed during one generation run:
`sample i` is the token produced by `common_sampler_sample` at loop
iteration `i`, `isEog` is `llama_vocab_is_eog`, `piece` is
`common_token_to_piece`, and `decodeOk t p` tells whether the single-token
feed-back `llama_decode` of token `t` at position `p` succeeds. -/
structure GenEnv where
  sample : Nat → Token
  isEog : Token → Bool
  piece : Token → List Char
  decodeOk : Token → Nat → Bool

/-- The image placeholder marker literal `<__image__>` (model_manager.cpp line 107). -/
def imageMarker : List Char := ['<', '_', '_', 'i', 'm', 'a', 'g', 'e', '_', '_', '>']

/-- The spaced marker text prepended by `generateResponse` (line 108): `" <__image__> "`. -/
def markerPad : List Char := [' '] ++ imageMarker ++ [' ']

/-- Substring test, embedding `std::string::find(pat) != std::string::npos`. -/
def containsSub (pat : List Char) : List Char → Bool
  | [] => pat.isPrefixOf []
  | c :: rest => pat.isPrefixOf (c :: rest) || containsSub pat (rest)

/-- Number of positions at which `pat` occurs in a character list (used to
state the "exactly one image-anchor point" part of the spec). -/
def countOccur (pat : List Char) : List Char → Nat
  | [] => cond (pat.isPrefixOf []) 1 0
  | c :: rest => cond (pat.isPrefixOf (c :: rest)) 1 0 + countOccur pat (rest)

/-- The marker-injection preprocessing of `generateResponse`
(model_manager.cpp lines 106-109): if the prompt does not contain
`<__image__>`, prepend `" <__image__> "`. -/
def ensureMarker (s : List Char) : List Char :=
  if containsSub imageMarker s then s else markerPad ++ s

/-- `ModelManager::checkAntiprompt` (model_manager.cpp lines 266-275):
false when no stop sequence is configured or too few tokens were
generated, otherwise `std::equal` over the trailing `anti.length` tokens. -/
def checkAntiprompt (anti gen : List Token) : Bool :=
  if anti.isEmpty ∨ gen.length < anti.length then false
  else gen.drop (gen.length - anti.length) == anti

/-- `ModelManager::cleanup` (model_manager.cpp lines 9-29): frees sampler,
context, model and vision context, nulls `vocab`, zeroes `n_past` and
clears staged bitmaps.  The chat-template handle, the antiprompt tokens
and the batch buffer are not touched. -/
def cleanup (s : MMState) : MMState :=
  { s with sampler := none, lctx := none, model := none, ctx_vision := none,
           vocab := none, n_past := 0, bitmaps := [] }

/-- The destructor `ModelManager::~ModelManager` (lines 5-7) just calls `cleanup`. -/
def modelManagerDestructor (s : MMState) : MMState :=
  cleanup s

/-- `ModelManager::loadLanguageModel` (lines 31-43): full `cleanup` first,
then load; on success also fetch the vocabulary. -/
def loadLanguageModel (env : Env) (s : MMState) (path : List Char) : Bool × MMState :=
  let s0 := cleanup s
  match env.loadModel path with
  | none => (false, s0)
  | some m => (true, { s0 with model := some m, vocab := some (env.getVocab m) })

/-- `ModelManager::loadVisionModel` (lines 45-58): the result of
`mtmd_init_from_file` (which receives the current, possibly null, model)
is assigned to `ctx_vision` and checked. -/
def loadVisionModel (env : Env) (s : MMState) (path : List Char) : Bool × MMState :=
  match env.loadVision path s.model with
  | none => (false, { s with ctx_vision := none })
  | some h => (true, { s with ctx_vision := some h })

/-- `ModelManager::initializeContext` (lines 60-71): the result of
`llama_new_context_with_model` (passed the possibly null model) is
assigned to `lctx` and checked. -/
def initializeContext (env : Env) (s : MMState) : Bool × MMState :=
  match env.newContext s.model s.n_batch with
  | none => (false, { s with lctx := none })
  | some h => (true, { s with lctx := some h })

/-- `ModelManager::initializeBatch` (lines 73-76): `llama_batch_init` and
an unconditional `return true`. -/
def initializeBatch (s : MMState) : Bool × MMState :=
  (true, { s with batchInit := true })

/-- `ModelManager::initializeSampler` (lines 78-88): the result of
`common_sampler_init` (passed the possibly null model) is assigned to
`sampler` and checked. -/
def initializeSampler (env : Env) (s : MMState) : Bool × MMState :=
  match env.samplerInit s.model with
  | none => (false, { s with sampler := none })
  | some h => (true, { s with sampler := some h })

/-- `ModelManager::processImage` (lines 90-99). -/
def processImage (env : Env) (s : MMState) (path : List Char) : Bool × MMState :=
  match env.decodeImage path with
  | none => (false, s)
  | some b => (true, { s with bitmaps := s.bitmaps ++ [b] })

/-- `ModelManager::addBitmap` (lines 101-103). -/
def addBitmap (s : MMState) (b : Nat) : MMState :=
  { s with bitmaps := s.bitmaps ++ [b] }

/-- `ModelManager::clearBitmaps` (model_manager.h line 43). -/
def clearBitmaps (s : MMState) : MMState :=
  { s with bitmaps := [] }

/-- `ModelManager::areModelsLoaded` (model_manager.h line 44). -/
def areModelsLoaded (s : MMState) : Bool :=
  s.model.isSome && s.ctx_vision.isSome && s.lctx.isSome

/-- `ModelManager::initializeChatTemplate` (lines 228-264). -/
def initializeChatTemplate (env : Env) (s : MMState) (template_name : Option (List Char)) :
    Bool × MMState :=
  match s.model with
  | none => (false, s)
  | some m =>
    if (env.builtinTemplate m).isNone && template_name.isNone then (false, s)
    else
      match env.templatesInit s.model template_name with
      | none => (false, { s with tmpls := none })
      | some tm =>
        let s1 := { s with tmpls := some tm }
        match template_name with
        | none => (true, s1)
        | some nm =>
          if nm = "vicuna".toList then
            (true, { s1 with antiprompt_tokens := env.tokenizeText s1.lctx ("ASSISTANT:".toList) })
          else if nm = "deepseek".toList then
            (true, { s1 with antiprompt_tokens := env.tokenizeText s1.lctx ("###".toList) })
          else (true, s1)

/-- `ModelManager::evalMessage` (lines 160-226): fail without templates;
format the user turn; jointly tokenize with the staged bitmaps (failure
returns before the clearing statement, so the bitmaps survive); on
success clear the bitmaps, evaluate the chunks, and commit the
backend-reported new position. -/
def evalMessage (env : Env) (s : MMState) (prompt : List Char) (add_bos : Bool) :
    Bool × MMState :=
  match s.tmpls with
  | none => (false, s)
  | some tm =>
    let formatted := env.chatFormat tm prompt
    if env.mtmdTokenize s.ctx_vision formatted add_bos s.bitmaps ≠ 0 then (false, s)
    else
      let s1 := { s with bitmaps := [] }
      match env.evalChunks s1.ctx_vision s1.lctx formatted s.bitmaps s1.n_past with
      | none => (false, s1)
      | some np => (true, { s1 with n_past := np })

/-- Observable outcome of the generation loop of `generateResponse`
(lines 115-148): success flag, final `n_past`, the callback payloads in
order, the generated-token list, and the number of successful single-token
feed-back decodes. -/
structure LoopRes where
  success : Bool
  n_past : Nat
  emitted : List (List Char)
  generated : List Token
  decodes : Nat

deriving instance DecidableEq for LoopRes

/-- The streaming step of the loop body (lines 128-133): a token whose
text fragment is empty is skipped, otherwise the fragment is handed to the
callback, i.e. appended to the emitted list. -/
def outAppend (genv : GenEnv) (out : List (List Char)) (i : Nat) : List (List Char) :=
  if (genv.piece (genv.sample i)).isEmpty then out else out ++ [genv.piece (genv.sample i)]

/-- One-to-one embedding of the `for (int i = 0; i < n_predict; i++)` loop
body of `generateResponse` (lines 118-146): sample, append, break on
end-of-generation or antiprompt, stream a non-empty piece, break on the
last allowed iteration, otherwise feed the token back (`n_past++` happens
before the decode result is checked, so a failing decode still leaves the
counter advanced). -/
def genLoopAux (genv : GenEnv) (anti : List Token) (nPredict : Int) :
    Nat → Nat → Nat → List Token → List (List Char) → Nat → LoopRes
  | _, 0, np, gen, out, d => ⟨true, np, out, gen, d⟩
  | i, fuel + 1, np, gen, out, d =>
    if genv.isEog (genv.sample i) || checkAntiprompt anti (gen ++ [genv.sample i]) then
      ⟨true, np, out, gen ++ [genv.sample i], d⟩
    else
      if nPredict - 1 ≤ (i : Int) then ⟨true, np, outAppend genv out i, gen ++ [genv.sample i], d⟩
      else
        if genv.decodeOk (genv.sample i) np then
          genLoopAux genv anti nPredict (i + 1) fuel (np + 1) (gen ++ [genv.sample i])
            (outAppend genv out i) (d + 1)
        else ⟨false, np + 1, outAppend genv out i, gen ++ [genv.sample i], d⟩

/-- The full generation loop, starting at iteration 0 with position `np`.
A non-positive `maxTokens` gives zero iterations, as in the C++ `for`. -/
def genLoop (genv : GenEnv) (anti : List Token) (maxTokens : Int) (np : Nat) : LoopRes :=
  genLoopAux genv anti maxTokens 0 maxTokens.toNat np [] [] 0

/-- The streaming `ModelManager::generateResponse(prompt, max_tokens,
callback)` (lines 105-149): inject the marker, evaluate the turn (failure
returns false with no callback invoked), then run the loop.  The third
component is the list of callback payloads. -/
def generateResponse (env : Env) (genv : GenEnv) (s : MMState) (prompt : List Char)
    (maxTokens : Int) : Bool × MMState × List (List Char) :=
  match evalMessage env s (ensureMarker prompt) true with
  | (true, s1) =>
    let r := genLoop genv s1.antiprompt_tokens maxTokens s1.n_past
    (r.success, { s1 with n_past := r.n_past }, r.emitted)
  | (false, s1) => (false, s1, [])

/-- The whole-response `ModelManager::generateResponse(prompt, max_tokens)`
(lines 152-158): accumulate the streamed pieces into one string and return
it, discarding the boolean result of the streaming call. -/
def generateResponseText (env : Env) (genv : GenEnv) (s : MMState) (prompt : List Char)
    (maxTokens : Int) : List Char × MMState :=
  let r := generateResponse env genv s prompt maxTokens
  (r.2.2.flatten, r.2.1)

/-- C wrapper `load_language_model` (model_manager_wrapper.cpp lines 16-19). -/
def load_language_model (env : Env) (mgr : Option MMState) (path : Option (List Char)) :
    Bool × Option MMState :=
  match mgr, path with
  | some s, some p => let r := loadLanguageModel env s p; (r.1, some r.2)
  | _, _ => (false, mgr)

/-- C wrapper `load_vision_model` (lines 21-24). -/
def load_vision_model (env : Env) (mgr : Option MMState) (path : Option (List Char)) :
    Bool × Option MMState :=
  match mgr, path with
  | some s, some p => let r := loadVisionModel env s p; (r.1, some r.2)
  | _, _ => (false, mgr)

/-- C wrapper `initialize_context` (lines 26-29). -/
def initialize_context (env : Env) (mgr : Option MMState) : Bool × Option MMState :=
  match mgr with
  | some s => let r := initializeContext env s; (r.1, some r.2)
  | none => (false, none)

/-- C wrapper `initialize_batch` (lines 31-34). -/
def initialize_batch (mgr : Option MMState) : Bool × Option MMState :=
  match mgr with
  | some s => let r := initializeBatch s; (r.1, some r.2)
  | none => (false, none)

/-- C wrapper `initialize_sampler` (lines 36-39). -/
def initialize_sampler (env : Env) (mgr : Option MMState) : Bool × Option MMState :=
  match mgr with
  | some s => let r := initializeSampler env s; (r.1, some r.2)
  | none => (false, none)

/-- C wrapper `initialize_chat_template` (lines 41-44); a null template
name is legal and forwarded. -/
def initialize_chat_template (env : Env) (mgr : Option MMState)
    (template_name : Option (List Char)) : Bool × Option MMState :=
  match mgr with
  | some s => let r := initializeChatTemplate env s template_name; (r.1, some r.2)
  | none => (false, none)

/-- C wrapper `process_image` (lines 46-49). -/
def process_image (env : Env) (mgr : Option MMState) (path : Option (List Char)) :
    Bool × Option MMState :=
  match mgr, path with
  | some s, some p => let r := processImage env s p; (r.1, some r.2)
  | _, _ => (false, mgr)

/-- C wrapper `generate_response` (lines 51-60): null manager or null
prompt gives a null result pointer and no call into the session. -/
def generate_response (env : Env) (genv : GenEnv) (mgr : Option MMState)
    (prompt : Option (List Char)) (maxTokens : Int) :
    Option (List Char) × Option MMState :=
  match mgr, prompt with
  | some s, some p => let r := generateResponseText env genv s p maxTokens; (some r.1, some r.2)
  | _, _ => (none, mgr)

/-- C wrapper `destroy_model_manager` (lines 10-14). -/
def destroy_model_manager (mgr : Option MMState) : Option MMState :=
  match mgr with
  | some s => some (cleanup s)
  | none => none

/-- A concrete prompt used by witnesses and counterexamples. -/
def cPrompt : List Char := "hi".toList

/-- A fully initialized concrete session state. -/
def cStateReady : MMState :=
  { ctx_vision := some 0, model := some 0, lctx := some 0, vocab := some 0,
    batchInit := true, n_batch := 512, n_past := 0, sampler := some 0,
    bitmaps := [], tmpls := some 0, antiprompt_tokens := [] }

/-- A concrete environment whose external calls all succeed; the initial
turn evaluation reports new position 3. -/
def cEnvOk : Env :=
  { loadModel := fun _ => some 0, getVocab := fun _ => 0,
    loadVision := fun _ _ => some 0, newContext := fun _ _ => some 0,
    samplerInit := fun _ => some 0, builtinTemplate := fun _ => some [],
    templatesInit := fun _ _ => some 0, tokenizeText := fun _ _ => [],
    chatFormat := fun _ p => p, mtmdTokenize := fun _ _ _ _ => 0,
    evalChunks := fun _ _ _ _ np => some (np + 3), decodeImage := fun _ => some 0 }

/-- A concrete environment whose external calls all fail. -/
def cEnvFail : Env :=
  { loadModel := fun _ => none, getVocab := fun _ => 0,
    loadVision := fun _ _ => none, newContext := fun _ _ => none,
    samplerInit := fun _ => none, builtinTemplate := fun _ => some [],
    templatesInit := fun _ _ => none, tokenizeText := fun _ _ => [],
    chatFormat := fun _ p => p, mtmdTokenize := fun _ _ _ _ => 0,
    evalChunks := fun _ _ _ _ _ => none, decodeImage := fun _ => none }

/-- Like `cEnvOk` but the joint tokenizer reports failure (status 1). -/
def cEnvTokFail : Env :=
  { cEnvOk with mtmdTokenize := fun _ _ _ _ => 1 }

/-- A concrete generation run: always samples token 7, never hits
end-of-generation, detokenizes to "A", and every feed-back decode succeeds. -/
def cGenvOk : GenEnv :=
  { sample := fun _ => 7, isEog := fun _ => false,
    piece := fun _ => ['A'], decodeOk := fun _ _ => true }

/-- Like `cGenvOk` but every feed-back decode fails. -/
def cGenvFailDecode : GenEnv :=
  { cGenvOk with decodeOk := fun _ _ => false }

/-- The session state after `cEnvOk`-evaluating the first turn from `cStateReady`. -/
def cS1 : MMState :=
  { cStateReady with n_past := 3 }

/-- A state with one staged bitmap. -/
def cStateBm : MMState :=
  { cStateReady with bitmaps := [1] }

/-- A state with no model but a previously initialized chat template. -/
def cStateNoModel : MMState :=
  { cStateReady with model := none, tmpls := some 2 }

/-- A prompt that already contains the image marker twice. -/
def cDoubleMarker : List Char := imageMarker ++ imageMarker

/-- The callback payloads produced by the iterations `i, i+1, ..., i+n-1`
of a generation run: the non-empty text fragments of the sampled tokens,
in order. -/
def emittedSeg (genv : GenEnv) (i n : Nat) : List (List Char) :=
  (((List.range' i n).map genv.sample).map genv.piece).filter (fun q => !q.isEmpty)

/-! ### Helper lemmas -/

/-- Unfolding equation for one loop iteration. -/
theorem genLoopAux_succ (genv : GenEnv) (anti : List Token) (nP : Int) (i fuel np : Nat)
    (gen : List Token) (out : List (List Char)) (d : Nat) :
    genLoopAux genv anti nP i (fuel + 1) np gen out d =
      if genv.isEog (genv.sample i) || checkAntiprompt anti (gen ++ [genv.sample i]) then
        ⟨true, np, out, gen ++ [genv.sample i], d⟩
      else
        if nP - 1 ≤ (i : Int) then ⟨true, np, outAppend genv out i, gen ++ [genv.sample i], d⟩
        else
          if genv.decodeOk (genv.sample i) np then
            genLoopAux genv anti nP (i + 1) fuel (np + 1) (gen ++ [genv.sample i])
              (outAppend genv out i) (d + 1)
          else ⟨false, np + 1, outAppend genv out i, gen ++ [genv.sample i], d⟩ := rfl

/-- A substring occurs zero times in a string in which it is not found. -/
theorem countOccur_eq_zero (pat : List Char) :
    ∀ s, containsSub pat s = false → countOccur pat s = 0 := by
  intro s
  induction s with
  | nil =>
    intro h
    simp only [containsSub] at h
    simp [countOccur, h]
  | cons c rest ih =>
    intro h
    simp only [containsSub, Bool.or_eq_false_iff] at h
    simp [countOccur, h.1, ih h.2]

/-- Prepending `" <__image__> "` to a marker-free text yields exactly one
marker occurrence: the pad itself contributes one, no occurrence can span
the boundary (an occurrence must start at the unique `<`), and the rest of
the text contributes none. -/
theorem countOccur_markerPad (s : List Char) (h : countOccur imageMarker s = 0) :
    countOccur imageMarker (markerPad ++ s) = 1 := by
  have e : countOccur imageMarker (markerPad ++ s)
      = 0 + (1 + (0 + (0 + (0 + (0 + (0 + (0 + (0 + (0 + (0 + (0 + (0
          + countOccur imageMarker s)))))))))))) := rfl
  rw [e, h]

/-- The text handed on by the marker-injection step always contains the marker. -/
theorem containsSub_ensureMarker (p : List Char) :
    containsSub imageMarker (ensureMarker p) = true := by
  unfold ensureMarker
  by_cases h : containsSub imageMarker p = true
  · rw [if_pos h]; exact h
  · rw [if_neg h]
    exact (rfl : containsSub imageMarker (markerPad ++ p) = true)

/-- Emitted-fragment bookkeeping: one loop step extends the callback trace
by the (possibly skipped) fragment of the current token. -/
theorem outAppend_emittedSeg (genv : GenEnv) (out : List (List Char)) (i m : Nat) :
    out ++ emittedSeg genv i (m + 1) = outAppend genv out i ++ emittedSeg genv (i + 1) m := by
  unfold emittedSeg outAppend
  rw [List.range'_succ]
  simp only [List.map_cons, List.filter_cons]
  cases h : (genv.piece (genv.sample i)).isEmpty <;> simp [h, List.append_assoc]

/-- A run of the generation loop that hits neither a stop condition nor a
decode failure before running out of its token budget: it succeeds, the
position counter advances once per iteration except the last, and so does
the feed-back decode count. -/
theorem genLoopAux_run_complete (genv : GenEnv) (anti : List Token) (N : Nat) :
    ∀ fuel i np gen out d, 1 ≤ fuel → i + fuel = N →
    gen = (List.range i).map genv.sample →
    (∀ j, i ≤ j → j < N → genv.isEog (genv.sample j) = false) →
    (∀ j, i ≤ j → j < N → checkAntiprompt anti ((List.range (j + 1)).map genv.sample) = false) →
    (∀ j, i ≤ j → j + 1 < N → genv.decodeOk (genv.sample j) (np + (j - i)) = true) →
    (genLoopAux genv anti (N : Int) i fuel np gen out d).success = true ∧
    (genLoopAux genv anti (N : Int) i fuel np gen out d).n_past = np + (fuel - 1) ∧
    (genLoopAux genv anti (N : Int) i fuel np gen out d).decodes = d + (fuel - 1) := by
  intro fuel
  induction fuel with
  | zero =>
    intro i np gen out d h1 _ _ _ _ _
    exact absurd h1 (by omega)
  | succ f ih =>
    intro i np gen out d _ hiN hgen hEog hAnti hDec
    have hiN' : i < N := by omega
    have hgen1 : gen ++ [genv.sample i] = (List.range (i + 1)).map genv.sample := by
      rw [hgen, List.range_succ, List.map_append, List.map_singleton]
    have hstop : (genv.isEog (genv.sample i)
        || checkAntiprompt anti (gen ++ [genv.sample i])) = false := by
      rw [hgen1, hEog i (Nat.le_refl i) hiN', hAnti i (Nat.le_refl i) hiN']
      rfl
    rw [genLoopAux_succ, hstop]
    cases f with
    | zero =>
      have hlast : ((N : Int) - 1 ≤ (i : Int)) := by omega
      rw [if_neg (by simp), if_pos hlast]
      exact ⟨rfl, by simp, by simp⟩
    | succ f2 =>
      have hnotlast : ¬((N : Int) - 1 ≤ (i : Int)) := by omega
      have hdec : genv.decodeOk (genv.sample i) np = true := by
        have h := hDec i (Nat.le_refl i) (by omega)
        simpa using h
      rw [if_neg (by simp), if_neg hnotlast, if_pos hdec]
      obtain ⟨s1, s2, s3⟩ := ih (i + 1) (np + 1) (gen ++ [genv.sample i]) (outAppend genv out i)
        (d + 1) (by omega) (by omega) hgen1
        (fun j hj hjN => hEog j (by omega) hjN)
        (fun j hj hjN => hAnti j (by omega) hjN)
        (fun j hj hjN => by
          have h := hDec j (by omega) hjN
          have e : np + (j - i) = np + 1 + (j - (i + 1)) := by omega
          rw [e] at h
          exact h)
      exact ⟨s1, by rw [s2]; omega, by rw [s3]; omega⟩

/-- A run of the generation loop whose feed-back decode first fails at
iteration `k` (no stop condition up to there): it reports failure, the
callback trace is exactly the non-empty fragments of tokens `0..k`, only
`k` feed-backs succeeded, and the position counter was nevertheless
advanced once more for the token whose decode failed. -/
theorem genLoopAux_run_fail (genv : GenEnv) (anti : List Token) (N k : Nat) :
    ∀ fuel i np gen out d, i + fuel = N → i ≤ k → k + 1 < N →
    gen = (List.range i).map genv.sample →
    (∀ j, i ≤ j → j ≤ k → genv.isEog (genv.sample j) = false) →
    (∀ j, i ≤ j → j ≤ k → checkAntiprompt anti ((List.range (j + 1)).map genv.sample) = false) →
    (∀ j, i ≤ j → j < k → genv.decodeOk (genv.sample j) (np + (j - i)) = true) →
    genv.decodeOk (genv.sample k) (np + (k - i)) = false →
    (genLoopAux genv anti (N : Int) i fuel np gen out d).success = false ∧
    (genLoopAux genv anti (N : Int) i fuel np gen out d).n_past = np + (k - i) + 1 ∧
    (genLoopAux genv anti (N : Int) i fuel np gen out d).decodes = d + (k - i) ∧
    (genLoopAux genv anti (N : Int) i fuel np gen out d).emitted
      = out ++ emittedSeg genv i (k + 1 - i) := by
  intro fuel
  induction fuel with
  | zero =>
    intro i np gen out d h1 h2 h3 _ _ _ _ _
    exact absurd h1 (by omega)
  | succ f ih =>
    intro i np gen out d hiN hik hkN hgen hEog hAnti hDec hfail
    have hgen1 : gen ++ [genv.sample i] = (List.range (i + 1)).map genv.sample := by
      rw [hgen, List.range_succ, List.map_append, List.map_singleton]
    have hstop : (genv.isEog (genv.sample i)
        || checkAntiprompt anti (gen ++ [genv.sample i])) = false := by
      rw [hgen1, hEog i (Nat.le_refl i) hik, hAnti i (Nat.le_refl i) hik]
      rfl
    have hnotlast : ¬((N : Int) - 1 ≤ (i : Int)) := by omega
    rw [genLoopAux_succ, hstop, if_neg (by simp), if_neg hnotlast]
    rcases Nat.lt_or_ge i k with hlt | hge
    · have hdec : genv.decodeOk (genv.sample i) np = true := by
        have h := hDec i (Nat.le_refl i) hlt
        simpa using h
      rw [if_pos hdec]
      obtain ⟨s1, s2, s3, s4⟩ := ih (i + 1) (np + 1) (gen ++ [genv.sample i])
        (outAppend genv out i) (d + 1) (by omega) (by omega) hkN hgen1
        (fun j hj hjk => hEog j (by omega) hjk)
        (fun j hj hjk => hAnti j (by omega) hjk)
        (fun j hj hjk => by
          have h := hDec j (by omega) hjk
          have e : np + (j - i) = np + 1 + (j - (i + 1)) := by omega
          rw [e] at h
          exact h)
        (by
          have e : np + (k - i) = np + 1 + (k - (i + 1)) := by omega
          rw [e] at hfail
          exact hfail)
      refine ⟨s1, by rw [s2]; omega, by rw [s3]; omega, ?_⟩
      rw [s4, ← outAppend_emittedSeg]
      have e : k + 1 - i = (k + 1 - (i + 1)) + 1 := by omega
      rw [e]
    · have hik0 : i = k := by omega
      subst hik0
      have hfail' : genv.decodeOk (genv.sample i) np = false := by
        simpa using hfail
      rw [if_neg (by rw [hfail']; exact Bool.false_ne_true)]
      refine ⟨rfl, by simp, by simp, ?_⟩
      show outAppend genv out i = out ++ emittedSeg genv i (i + 1 - i)
      have e : i + 1 - i = 0 + 1 := by omega
      rw [e, outAppend_emittedSeg]
      simp [emittedSeg]

/-! ### Claims -/

/-- C1 (amended): a failed generation surfaces to the caller of the
streaming variant as `false`, with no callback invoked after the failing
feed-back decode (the trace is exactly the non-empty fragments of tokens
`0..k` when the decode of token `k` fails); the whole-response variant,
however, ignores that failure and returns the silently-accumulated partial
text (the concatenation of that same trace) with no error indication. -/
theorem c1_failure_surfacing (env : Env) (genv : GenEnv) (s s1 : MMState)
    (prompt : List Char) (N k : Nat) (hkN : k + 1 < N)
    (heval : evalMessage env s (ensureMarker prompt) true = (true, s1))
    (hEog : ∀ j, j ≤ k → genv.isEog (genv.sample j) = false)
    (hAnti : ∀ j, j ≤ k →
      checkAntiprompt s1.antiprompt_tokens ((List.range (j + 1)).map genv.sample) = false)
    (hDec : ∀ j, j < k → genv.decodeOk (genv.sample j) (s1.n_past + j) = true)
    (hfail : genv.decodeOk (genv.sample k) (s1.n_past + k) = false) :
    (generateResponse env genv s prompt (N : Int)).1 = false ∧
    (generateResponse env genv s prompt (N : Int)).2.2 = emittedSeg genv 0 (k + 1) ∧
    (generateResponseText env genv s prompt (N : Int)).1 = (emittedSeg genv 0 (k + 1)).flatten := by
  have hrun := genLoopAux_run_fail genv s1.antiprompt_tokens N k N 0 s1.n_past [] [] 0
    (by omega) (by omega) hkN (by simp)
    (fun j _ hj => hEog j hj) (fun j _ hj => hAnti j hj)
    (fun j _ hj => by simpa using hDec j hj) (by simpa using hfail)
  have hem : (genLoop genv s1.antiprompt_tokens (N : Int) s1.n_past).emitted
      = emittedSeg genv 0 (k + 1) := by
    have h := hrun.2.2.2
    simpa using h
  refine ⟨?_, ?_, ?_⟩
  · unfold generateResponse
    rw [heval]
    exact hrun.1
  · unfold generateResponse
    rw [heval]
    exact hem
  · unfold generateResponseText generateResponse
    rw [heval]
    show ((genLoop genv s1.antiprompt_tokens (N : Int) s1.n_past).emitted).flatten
        = (emittedSeg genv 0 (k + 1)).flatten
    rw [hem]

/-- C1 witness: a concrete run in which the first feed-back decode fails
after one fragment was streamed. -/
theorem c1_failure_surfacing_witness :
    (generateResponse cEnvOk cGenvFailDecode cStateReady cPrompt ((2 : Nat) : Int)).1 = false ∧
    (generateResponse cEnvOk cGenvFailDecode cStateReady cPrompt ((2 : Nat) : Int)).2.2
      = emittedSeg cGenvFailDecode 0 (0 + 1) ∧
    (generateResponseText cEnvOk cGenvFailDecode cStateReady cPrompt ((2 : Nat) : Int)).1
      = (emittedSeg cGenvFailDecode 0 (0 + 1)).flatten :=
  c1_failure_surfacing cEnvOk cGenvFailDecode cStateReady cS1 cPrompt 2 0 (by decide) (by decide)
    (by decide) (by decide) (by decide) (by decide)

/-- C1 counterexample to the claim as stated: the streaming call reports
failure, yet the whole-response variant returns the non-empty accumulated
partial text "A" rather than false or an explicit error text. -/
theorem c1_accumulated_text_counterexample :
    (generateResponse cEnvOk cGenvFailDecode cStateReady cPrompt 2).1 = false ∧
    (generateResponseText cEnvOk cGenvFailDecode cStateReady cPrompt 2).1 = ['A'] := by
  exact ⟨by decide, by decide⟩

/-- C2 (amended): when the feed-back decode of the `(k+1)`-st sampled
token fails, the loop reports failure having completed exactly `k`
successful feed-backs, and the position counter ends at the
last-successful value plus one — the `n_past++` for the failed token has
already happened when the decode result is checked. -/
theorem c2_n_past_after_decode_failure (genv : GenEnv) (anti : List Token) (N k np0 : Nat)
    (hkN : k + 1 < N)
    (hEog : ∀ j, j ≤ k → genv.isEog (genv.sample j) = false)
    (hAnti : ∀ j, j ≤ k →
      checkAntiprompt anti ((List.range (j + 1)).map genv.sample) = false)
    (hDec : ∀ j, j < k → genv.decodeOk (genv.sample j) (np0 + j) = true)
    (hfail : genv.decodeOk (genv.sample k) (np0 + k) = false) :
    (genLoop genv anti (N : Int) np0).success = false ∧
    (genLoop genv anti (N : Int) np0).decodes = k ∧
    (genLoop genv anti (N : Int) np0).n_past = np0 + k + 1 := by
  have hrun := genLoopAux_run_fail genv anti N k N 0 np0 [] [] 0
    (by omega) (by omega) hkN (by simp)
    (fun j _ hj => hEog j hj) (fun j _ hj => hAnti j hj)
    (fun j _ hj => by simpa using hDec j hj) (by simpa using hfail)
  exact ⟨hrun.1, by simpa using hrun.2.2.1, by simpa using hrun.2.1⟩

/-- C2 witness: concrete failing run with `k = 0` starting at position 3. -/
theorem c2_n_past_after_decode_failure_witness :
    (genLoop cGenvFailDecode [] ((2 : Nat) : Int) 3).success = false ∧
    (genLoop cGenvFailDecode [] ((2 : Nat) : Int) 3).decodes = 0 ∧
    (genLoop cGenvFailDecode [] ((2 : Nat) : Int) 3).n_past = 3 + 0 + 1 :=
  c2_n_past_after_decode_failure cGenvFailDecode [] 2 0 3 (by decide) (by decide) (by decide)
    (by decide) (by decide)

/-- C2 counterexample to the claim as stated: after the initial evaluation
the counter is 3 and no feed-back decode ever succeeds, so the value after
the last successful decode is 3, yet the call ends with the counter at 4. -/
theorem c2_n_past_counterexample :
    (generateResponse cEnvOk cGenvFailDecode cStateReady cPrompt 2).1 = false ∧
    (genLoop cGenvFailDecode [] 2 3).decodes = 0 ∧
    (generateResponse cEnvOk cGenvFailDecode cStateReady cPrompt 2).2.1.n_past = 4 := by
  exact ⟨by decide, by decide, by decide⟩

/-- C3 (amended): on successful joint tokenization `evalMessage` empties
the bitmap staging buffer (whether or not the subsequent chunk evaluation
succeeds); on tokenization failure it returns false with the session state
unchanged, so the staged bitmaps are retained, not cleared. -/
theorem c3_bitmap_drain (env : Env) (s : MMState) (prompt : List Char) (bos : Bool) (tm : Nat)
    (htm : s.tmpls = some tm) :
    (env.mtmdTokenize s.ctx_vision (env.chatFormat tm prompt) bos s.bitmaps = 0 →
      (evalMessage env s prompt bos).2.bitmaps = []) ∧
    (env.mtmdTokenize s.ctx_vision (env.chatFormat tm prompt) bos s.bitmaps ≠ 0 →
      evalMessage env s prompt bos = (false, s)) := by
  unfold evalMessage
  simp only [htm]
  constructor
  · intro h0
    rw [if_neg (by simp [h0])]
    split <;> simp
  · intro hne
    rw [if_pos hne]

/-- C3 witness: a staged bitmap is drained by a successful tokenization
and survives a failed one. -/
theorem c3_bitmap_drain_witness :
    (evalMessage cEnvOk cStateBm cPrompt true).2.bitmaps = [] ∧
    evalMessage cEnvTokFail cStateBm cPrompt true = (false, cStateBm) :=
  ⟨(c3_bitmap_drain cEnvOk cStateBm cPrompt true 0 (by decide)).1 (by decide),
   (c3_bitmap_drain cEnvTokFail cStateBm cPrompt true 0 (by decide)).2 (by decide)⟩

/-- C3 counterexample to the claim as stated: with one staged bitmap and a
failing joint tokenizer, `evalMessage` fails and the staging buffer still
holds the bitmap — it is not emptied on the failure path (the clearing
statement sits after the early return of model_manager.cpp line 205). -/
theorem c3_bitmaps_retained_counterexample :
    (evalMessage cEnvTokFail cStateBm cPrompt true).1 = false ∧
    ((evalMessage cEnvTokFail cStateBm cPrompt true).2).bitmaps = [1] := by
  exact ⟨by decide, by decide⟩

/-- C4 (amended): the text handed to the chat-template formatting step by
`generateResponse` always contains the image marker; when the original
prompt lacked the marker it is exactly the prompt with `" <__image__> "`
prepended and contains exactly one marker occurrence; when the prompt
already contained the marker it is passed through unchanged (so it may
contain more than one anchor point). -/
theorem c4_marker_injection (p : List Char) :
    containsSub imageMarker (ensureMarker p) = true ∧
    (containsSub imageMarker p = true → ensureMarker p = p) ∧
    (containsSub imageMarker p = false →
      ensureMarker p = markerPad ++ p ∧ countOccur imageMarker (ensureMarker p) = 1) := by
  refine ⟨containsSub_ensureMarker p, ?_, ?_⟩
  · intro h
    unfold ensureMarker
    rw [if_pos h]
  · intro h
    have he : ensureMarker p = markerPad ++ p := by
      unfold ensureMarker
      rw [if_neg (by simp [h])]
    refine ⟨he, ?_⟩
    rw [he]
    exact countOccur_markerPad p (countOccur_eq_zero imageMarker p h)

/-- C4 witness: the marker-free prompt "hi" gets the spaced marker
injected at the front and then contains exactly one marker. -/
theorem c4_marker_injection_witness :
    containsSub imageMarker (ensureMarker cPrompt) = true ∧
    ensureMarker cPrompt = markerPad ++ cPrompt ∧
    countOccur imageMarker (ensureMarker cPrompt) = 1 :=
  ⟨(c4_marker_injection cPrompt).1,
   ((c4_marker_injection cPrompt).2.2 (by decide)).1,
   ((c4_marker_injection cPrompt).2.2 (by decide)).2⟩

/-- C4 counterexample to the "exactly one image-anchor point" part of the
claim as stated: a prompt that already contains the marker twice is passed
through unchanged, so the formatted turn receives two anchor points. -/
theorem c4_two_markers_counterexample :
    ensureMarker cDoubleMarker = cDoubleMarker ∧
    countOccur imageMarker (ensureMarker cDoubleMarker) = 2 := by
  exact ⟨by decide, by decide⟩

/-- C5 (amended): each initializer returns false when its underlying
external call reports failure, and the assigned field then holds the empty
result of that call; `initializeBatch` never fails; `initializeChatTemplate`
additionally checks its model prerequisite, but on that early failure it
leaves the session unchanged — a previously initialized template handle is
retained, not emptied.  `loadVisionModel`, `initializeContext` and
`initializeSampler` perform no prerequisite check of their own: the
possibly-null model is forwarded to the external call. -/
theorem c5_initializer_failure (env : Env) (s : MMState) (path nm : List Char) :
    (env.loadVision path s.model = none →
      loadVisionModel env s path = (false, { s with ctx_vision := none })) ∧
    (env.newContext s.model s.n_batch = none →
      initializeContext env s = (false, { s with lctx := none })) ∧
    initializeBatch s = (true, { s with batchInit := true }) ∧
    (env.samplerInit s.model = none →
      initializeSampler env s = (false, { s with sampler := none })) ∧
    (s.model = none → initializeChatTemplate env s (some nm) = (false, s)) ∧
    (∀ m, s.model = some m → env.templatesInit s.model (some nm) = none →
      initializeChatTemplate env s (some nm) = (false, { s with tmpls := none })) := by
  refine ⟨?_, ?_, rfl, ?_, ?_, ?_⟩
  · intro h
    unfold loadVisionModel
    rw [h]
  · intro h
    unfold initializeContext
    rw [h]
  · intro h
    unfold initializeSampler
    rw [h]
  · intro h
    unfold initializeChatTemplate
    simp only [h]
  · intro m hm ht
    rw [hm] at ht
    unfold initializeChatTemplate
    simp only [hm]
    rw [if_neg (by simp)]
    simp only [ht]

/-- C5 witness: all-failing external calls produce false with the
corresponding field empty, and a missing model fails the template
initializer with the state unchanged. -/
theorem c5_initializer_failure_witness :
    loadVisionModel cEnvFail cStateReady cPrompt = (false, { cStateReady with ctx_vision := none }) ∧
    initializeContext cEnvFail cStateReady = (false, { cStateReady with lctx := none }) ∧
    initializeSampler cEnvFail cStateReady = (false, { cStateReady with sampler := none }) ∧
    initializeChatTemplate cEnvFail cStateNoModel (some cPrompt) = (false, cStateNoModel) ∧
    initializeChatTemplate cEnvFail cStateReady (some cPrompt)
      = (false, { cStateReady with tmpls := none }) :=
  ⟨(c5_initializer_failure cEnvFail cStateReady cPrompt cPrompt).1 rfl,
   (c5_initializer_failure cEnvFail cStateReady cPrompt cPrompt).2.1 rfl,
   (c5_initializer_failure cEnvFail cStateReady cPrompt cPrompt).2.2.2.1 rfl,
   (c5_initializer_failure cEnvFail cStateNoModel cPrompt cPrompt).2.2.2.2.1 rfl,
   (c5_initializer_failure cEnvFail cStateReady cPrompt cPrompt).2.2.2.2.2 0 rfl rfl⟩

/-- C5 counterexample to the claim as stated: `initializeChatTemplate`
called with no model loaded returns false but leaves the previously
initialized chat-template field non-empty, contradicting "on failure the
corresponding field is left/set to empty". -/
theorem c5_template_retained_counterexample :
    (initializeChatTemplate cEnvOk cStateNoModel (some cPrompt)).1 = false ∧
    ((initializeChatTemplate cEnvOk cStateNoModel (some cPrompt)).2).tmpls = some 2 := by
  exact ⟨by decide, by decide⟩

/-- C6: `loadLanguageModel` begins with a full `cleanup`, which nulls the
vision context and the decode context, and it re-creates neither; hence
immediately after any `loadLanguageModel` call — succeeding or failing —
`areModelsLoaded` is false until those are re-initialized. -/
theorem c6_reload_invalidates (env : Env) (s : MMState) (path : List Char) :
    areModelsLoaded (loadLanguageModel env s path).2 = false := by
  unfold loadLanguageModel
  cases h : env.loadModel path <;> simp [areModelsLoaded, cleanup]

/-- C7: a generate call with budget `N ≥ 1` that runs to completion
without end-of-generation, antiprompt match or decode failure succeeds;
the position counter ends at (value committed by the initial turn
evaluation) + (N - 1), and exactly N - 1 single-token feed-backs were
decoded — the final sampled token is never fed back. -/
theorem c7_position_monotonicity (env : Env) (genv : GenEnv) (s s1 : MMState)
    (prompt : List Char) (N : Nat) (hN : 1 ≤ N)
    (heval : evalMessage env s (ensureMarker prompt) true = (true, s1))
    (hEog : ∀ j, j < N → genv.isEog (genv.sample j) = false)
    (hAnti : ∀ j, j < N →
      checkAntiprompt s1.antiprompt_tokens ((List.range (j + 1)).map genv.sample) = false)
    (hDec : ∀ j, j + 1 < N → genv.decodeOk (genv.sample j) (s1.n_past + j) = true) :
    (generateResponse env genv s prompt (N : Int)).1 = true ∧
    (generateResponse env genv s prompt (N : Int)).2.1.n_past = s1.n_past + (N - 1) ∧
    (genLoop genv s1.antiprompt_tokens (N : Int) s1.n_past).decodes = N - 1 := by
  have hrun := genLoopAux_run_complete genv s1.antiprompt_tokens N N 0 s1.n_past [] [] 0
    hN (by omega) (by simp) (fun j _ hj => hEog j hj) (fun j _ hj => hAnti j hj)
    (fun j _ hj => by simpa using hDec j hj)
  refine ⟨?_, ?_, ?_⟩
  · unfold generateResponse
    rw [heval]
    exact hrun.1
  · unfold generateResponse
    rw [heval]
    exact hrun.2.1
  · exact (by simpa using hrun.2.2)

/-- C7 witness: a one-token budget run from the concrete ready state:
the initial evaluation commits position 3, no feed-back happens. -/
theorem c7_position_monotonicity_witness :
    (generateResponse cEnvOk cGenvOk cStateReady cPrompt ((1 : Nat) : Int)).1 = true ∧
    (generateResponse cEnvOk cGenvOk cStateReady cPrompt ((1 : Nat) : Int)).2.1.n_past
      = cS1.n_past + (1 - 1) ∧
    (genLoop cGenvOk cS1.antiprompt_tokens ((1 : Nat) : Int) cS1.n_past).decodes = 1 - 1 :=
  c7_position_monotonicity cEnvOk cGenvOk cStateReady cS1 cPrompt 1 (by decide) (by decide)
    (by decide) (by decide) (fun j h => absurd h (by omega))

/-- C8: `checkAntiprompt` holds exactly when a stop sequence is configured
and it equals the trailing tokens of the generated sequence; in
particular it is false when no stop sequence is configured or when fewer
tokens were generated than the stop-sequence length (a suffix cannot be
longer than the list).  The embedding is a pure function of its inputs. -/
theorem c8_checkAntiprompt_spec (anti gen : List Token) :
    checkAntiprompt anti gen = true ↔ anti ≠ [] ∧ anti <:+ gen := by
  unfold checkAntiprompt
  by_cases h : anti.isEmpty ∨ gen.length < anti.length
  · rw [if_pos h]
    constructor
    · intro hf
      exact absurd hf (by simp)
    · rintro ⟨hne, hsuf⟩
      rcases h with h1 | h2
      · exact absurd (List.isEmpty_iff.mp h1) hne
      · exact absurd hsuf.length_le (by omega)
  · rw [if_neg h]
    push_neg at h
    obtain ⟨h1, h2⟩ := h
    rw [beq_iff_eq]
    constructor
    · intro hd
      refine ⟨fun hnil => ?_, ?_⟩
      · rw [hnil] at h1
        simp at h1
      · rw [List.suffix_iff_eq_drop]
        exact hd.symm
    · rintro ⟨-, hsuf⟩
      exact (List.suffix_iff_eq_drop.mp hsuf).symm

/-- C9 (amended): `cleanup` is idempotent and nulls the sampler, context,
model, vision-context and vocabulary handles, zeroes the position counter
and empties the bitmap buffer; the chat-template handle and the antiprompt
tokens are NOT cleared by it (they survive until re-initialization); the
destructor is exactly a `cleanup` call. -/
theorem c9_cleanup_idempotent (s : MMState) :
    cleanup (cleanup s) = cleanup s ∧
    (cleanup s).sampler = none ∧ (cleanup s).lctx = none ∧ (cleanup s).model = none ∧
    (cleanup s).ctx_vision = none ∧ (cleanup s).vocab = none ∧
    (cleanup s).n_past = 0 ∧ (cleanup s).bitmaps = [] ∧
    (cleanup s).tmpls = s.tmpls ∧ (cleanup s).antiprompt_tokens = s.antiprompt_tokens ∧
    modelManagerDestructor s = cleanup s :=
  ⟨rfl, rfl, rfl, rfl, rfl, rfl, rfl, rfl, rfl, rfl, rfl⟩

/-- C9 counterexample to the "all resource handles null/empty" part of the
claim as stated: from a state with an initialized chat template, `cleanup`
leaves the chat-template handle set. -/
theorem c9_cleanup_counterexample :
    (cleanup cStateReady).tmpls = some 0 ∧ (cleanup cStateReady).tmpls ≠ none := by
  exact ⟨by decide, by decide⟩

/-- C10: every C wrapper called with a null manager handle, or with a null
required string argument, returns false (nullptr for `generate_response`)
and leaves the manager state untouched. -/
theorem c10_wrapper_null_guards (env : Env) (genv : GenEnv) (s : MMState)
    (p : List Char) (n : Int) :
    load_language_model env none (some p) = (false, none) ∧
    load_language_model env (some s) none = (false, some s) ∧
    load_language_model env none none = (false, none) ∧
    load_vision_model env none (some p) = (false, none) ∧
    load_vision_model env (some s) none = (false, some s) ∧
    initialize_context env none = (false, none) ∧
    initialize_batch none = (false, none) ∧
    initialize_sampler env none = (false, none) ∧
    initialize_chat_template env none (some p) = (false, none) ∧
    initialize_chat_template env none none = (false, none) ∧
    process_image env none (some p) = (false, none) ∧
    process_image env (some s) none = (false, some s) ∧
    generate_response env genv none (some p) n = (none, none) ∧
    generate_response env genv (some s) none n = (none, some s) :=
  ⟨rfl, rfl, rfl, rfl, rfl, rfl, rfl, rfl, rfl, rfl, rfl, rfl, rfl, rfl⟩
